import Mathlib

/-!
Verification development for the Antra BMS protocol engine
(`custom_components/antra_bms/coordinator.py`).
The Python code is shallowly embedded: hex-digit strings become `List Char`,
byte strings become `List Nat`, Python `float` arithmetic on exactly
representable protocol scales becomes `Rat`, and code that can raise an
exception returns `Option`.  Python slicing `s[pos:pos+len]` becomes
`strSlice`, `int(s, 16)` becomes `parseHexNat` (which is `none` exactly when
Python's `int` raises on an empty or non-hex-digit substring).
-/

set_option maxRecDepth 80000
set_option maxHeartbeats 4000000

/-- Python `decoded[pos:pos+len]` on a hex-digit string. -/
def strSlice (s : List Char) (pos len : Nat) : List Char :=
  (s.drop pos).take len

/-- Value of a single hex digit, `none` for a non-hex-digit character
(Python `int(-, 16)` raises on such input). -/
def hexDigitVal (c : Char) : Option Nat :=
  if '0' ≤ c ∧ c ≤ '9' then some (c.toNat - 48)
  else if 'A' ≤ c ∧ c ≤ 'F' then some (c.toNat - 55)
  else if 'a' ≤ c ∧ c ≤ 'f' then some (c.toNat - 87)
  else none

/-- Accumulating base-16 parser over a digit list. -/
def parseHexGo : Nat → List Char → Option Nat
  | acc, [] => some acc
  | acc, c :: cs =>
    match hexDigitVal c with
    | some d => parseHexGo (16 * acc + d) cs
    | none => none

/-- Python `int(s, 16)` restricted to hex-digit strings: `none` on the
empty string or on any non-hex-digit character, otherwise the base-16
value. -/
def parseHexNat (s : List Char) : Option Nat :=
  if s.isEmpty then none else parseHexGo 0 s

/-- Source `convert_signed(decoded, pos, length, scale)` (coordinator.py:15-41):
extract `length` hex digits at `pos`, two's-complement fold over the
field's own bit width `4*length`, divide by `scale`. -/
def convert_signed (decoded : List Char) (pos len : Nat) (scale : Rat) : Option Rat :=
  match parseHexNat (strSlice decoded pos len) with
  | none => none
  | some raw =>
    let bits := len * 4
    let sign_bit : Nat := 2 ^ (bits - 1)
    let v : Int := if sign_bit ≤ raw then (raw : Int) - 2 ^ bits else (raw : Int)
    some ((v : Rat) / scale)

/-- Sum of the character codes of a list (Python `sum(ord(c) for c in s)`). -/
def charSum (s : List Char) : Nat :=
  (s.map Char.toNat).sum

/-- Source `_calculate_checksum(data)` (coordinator.py:75-79): sums the bytes
`data[1:-3]` (excluding SOI, CHKSUM and EOI), reduces mod 65536, XORs with
`0xFFFF` and adds 1.  Note there is no final reduction mod 65536. -/
def calculate_checksum (data : List Nat) : Nat :=
  let sum_val := ((data.drop 1).take (data.length - 4)).sum
  let remainder := sum_val % 65536
  (remainder ^^^ 0xFFFF) + 1

/-- Source `_calculate_address(battery_number)` (coordinator.py:81-98) with the
coordinator's group number made explicit. -/
def calculate_address (battery_number : Option Nat) (group_number : Nat) : Nat :=
  match battery_number with
  | none => 0 + 16 * group_number
  | some n => n + 16 * group_number

/-- Single uppercase hex digit character (as produced by Python `"%X"`). -/
def hexDigitChar (d : Nat) : Char :=
  (['0', '1', '2', '3', '4', '5', '6', '7', '8', '9',
    'A', 'B', 'C', 'D', 'E', 'F']).getD d '0'

/-- Fuelled uppercase hex rendering; `fuel > n` suffices. -/
def toHexAux : Nat → Nat → List Char
  | 0, _ => []
  | fuel + 1, n =>
    if n < 16 then [hexDigitChar n]
    else toHexAux fuel (n / 16) ++ [hexDigitChar (n % 16)]

/-- Uppercase hex rendering of a natural number (Python `"%X" % n`). -/
def toHexUpper (n : Nat) : List Char := toHexAux (n + 1) n

/-- Python `"%0wX" % n`: uppercase hex left-padded with `'0'` to width
`w`; never truncates. -/
def hexPad (w n : Nat) : List Char :=
  let h := toHexUpper n
  List.replicate (w - h.length) '0' ++ h

/-- Source `_build_command(command, battery_number)` (coordinator.py:114-159)
with the coordinator's group number explicit.  The code computes a
per-target `info_byte` and then unconditionally overwrites it with
`b"FF"` (line 138), so INFO is always `"FF"`.  The checksum is computed
over every character after SOI and appended as 4 upper-case hex digits,
followed by EOI. -/
def build_command (command : List Char) (battery_number : Option Nat)
    (group_number : Nat) : List Char :=
  let address := calculate_address battery_number group_number
  let body := ['2', '2'] ++ hexPad 2 address ++ ['4', 'A'] ++ command
    ++ ['E', '0', '0', '2'] ++ ['F', 'F']
  let checksum := ((charSum body % 65536) ^^^ 0xFFFF) + 1
  '~' :: (body ++ hexPad 4 checksum ++ ['\x0D'])

/-- Source `_verify_checksum(data)` (coordinator.py:192-227): strip SOI/EOI,
split the trailing 4 hex digits as the claimed checksum, recompute the
checksum over the remaining characters, compare.  Any extraction failure
(non-hex checksum digits) yields `false`. -/
def verify_checksum (data : List Char) : Bool :=
  let hex_str := (data.drop 1).dropLast
  let data_str := hex_str.take (hex_str.length - 4)
  match parseHexNat (hex_str.drop (hex_str.length - 4)) with
  | none => false
  | some msg_checksum =>
    let sum_val := charSum data_str
    let remainder := sum_val % 65536
    msg_checksum == (remainder ^^^ 0xFFFF) + 1

/-- Source `_verify_known_checksum` (coordinator.py:100-112): the checksum
computation over the documented reference body `"22004A42E002FF"`. -/
def verify_known_checksum : Nat :=
  let data := "22004A42E002FF".toList
  let sum_val := charSum data
  let remainder := sum_val % 65536
  (remainder ^^^ 0xFFFF) + 1

/-- Source `SystemHeader` record produced by `_parse_header_block`
(coordinator.py:391-467), field for field. -/
structure HeaderData where
  voltage : Rat
  current : Rat
  total_capacity : Nat
  remaining_capacity : Nat
  soc : Nat
  max_ambient_temp : Rat
  min_ambient_temp : Rat
  max_cell_voltage : Nat
  min_cell_voltage : Nat
  temperature_max : Rat
  temperature_min : Rat
  reserved : List Char
  cell_count : Nat
  battery_count : Nat


/-- Source `_parse_header_block(decoded, pos=12)` (coordinator.py:391-467).
Field reads in source order; any extraction failure makes the whole
header parse fail (the Python code re-raises).  Note the source reads
`temperature_max` at `pos+40` and `temperature_min` at `pos+44` (inside
the span it also stores as `reserved`, `pos+44..pos+61`); nothing reads
`pos+36..pos+39`. -/
def parse_header_block (decoded : List Char) (pos : Nat) :
    Option (HeaderData × Nat) :=
  match parseHexNat (strSlice decoded pos 4) with
  | none => none
  | some voltage_raw =>
  match convert_signed decoded (pos + 4) 4 1 with
  | none => none
  | some current =>
  match parseHexNat (strSlice decoded (pos + 8) 4) with
  | none => none
  | some total_capacity =>
  match parseHexNat (strSlice decoded (pos + 12) 4) with
  | none => none
  | some remaining_capacity =>
  match parseHexNat (strSlice decoded (pos + 16) 4) with
  | none => none
  | some soc =>
  match convert_signed decoded (pos + 20) 4 10 with
  | none => none
  | some max_ambient_temp =>
  match convert_signed decoded (pos + 24) 4 10 with
  | none => none
  | some min_ambient_temp =>
  match parseHexNat (strSlice decoded (pos + 28) 4) with
  | none => none
  | some max_cell_voltage =>
  match parseHexNat (strSlice decoded (pos + 32) 4) with
  | none => none
  | some min_cell_voltage =>
  match convert_signed decoded (pos + 40) 4 10 with
  | none => none
  | some temperature_max =>
  match convert_signed decoded (pos + 44) 4 10 with
  | none => none
  | some temperature_min =>
  match parseHexNat (strSlice decoded (pos + 62) 2) with
  | none => none
  | some cell_count =>
  match parseHexNat (strSlice decoded (pos + 64) 2) with
  | none => none
  | some battery_count =>
  some (⟨(voltage_raw : Rat) / 100, current, total_capacity,
    remaining_capacity, soc, max_ambient_temp, min_ambient_temp,
    max_cell_voltage, min_cell_voltage, temperature_max, temperature_min,
    strSlice decoded (pos + 44) 18, cell_count, battery_count⟩, pos + 66)

/-- Per-battery record produced by `_parse_battery_block`
(coordinator.py:469-758), field for field. -/
structure BatteryData where
  number : Nat
  soc : Nat
  voltage : Rat
  cell_count : Nat
  cells : List Rat
  ambient_temperature : Rat
  pack_avg_temperature : Rat
  mos_temperature : Rat
  pack_temp_sensor_count : Nat
  pack_temperatures : List Rat
  current : Rat
  internal_resistance : Nat
  soh : Nat
  user_defined : Nat
  full_charge_capacity : Rat
  remaining_capacity : Rat
  cycle_count : Nat
  max_cell_voltage : Nat
  min_cell_voltage : Nat
  max_cell_temp : Rat
  min_cell_temp : Rat
  unknown_3 : Nat
  unknown_4 : Nat
  avg_cell_temp : Rat
  average_cell_voltage : Nat
  total_charge : Nat
  total_discharge : Nat
  voltage_status : Nat
  current_status : Nat
  temperature_status : Nat
  alarm_status : Nat
  fet_status : Nat
  overvoltage_protect : Nat
  undervoltage_protect : Nat
  overvoltage_alarm : Nat
  undervoltage_alarm : Nat
  balance_status : Nat


/-- The cell-voltage run of `_parse_battery_block` (coordinator.py:550-557):
`count` two-byte fields, each `/1000`, advancing the cursor by 4 digits
per cell. -/
def parseCells (decoded : List Char) : Nat → Nat → Option (List Rat × Nat)
  | 0, pos => some ([], pos)
  | n + 1, pos =>
    match parseHexNat (strSlice decoded pos 4) with
    | none => none
    | some v =>
      match parseCells decoded n (pos + 4) with
      | none => none
      | some (rest, pos') => some (((v : Rat) / 1000) :: rest, pos')

/-- The pack-temperature run of `_parse_battery_block`
(coordinator.py:586-592): `count` signed two-byte fields, each `/10`. -/
def parseTemps (decoded : List Char) : Nat → Nat → Option (List Rat × Nat)
  | 0, pos => some ([], pos)
  | n + 1, pos =>
    match convert_signed decoded pos 4 10 with
    | none => none
    | some v =>
      match parseTemps decoded n (pos + 4) with
      | none => none
      | some (rest, pos') => some (v :: rest, pos')

/-- Fields of the fixed-width run of `_parse_battery_block` from
Charging/Discharging Current (coordinator.py:596) through Max/Min Cell
Voltage and the unknown descriptive fields (coordinator.py:640-683):
13 fields, 50 hex digits. -/
structure BatteryMid where
  current : Rat
  internal_resistance : Nat
  soh : Nat
  user_defined : Nat
  full_charge_capacity : Rat
  remaining_capacity : Rat
  cycle_count : Nat
  max_cell_voltage : Nat
  min_cell_voltage : Nat
  max_cell_temp : Rat
  min_cell_temp : Rat
  unknown_3 : Nat
  unknown_4 : Nat


/-- Fields of the fixed-width run of `_parse_battery_block` from
Average Cell Temp (coordinator.py:666) through Balance Status
(coordinator.py:741): 14 fields, 56 hex digits. -/
structure BatteryStatusRun where
  avg_cell_temp : Rat
  average_cell_voltage : Nat
  total_charge : Nat
  total_discharge : Nat
  voltage_status : Nat
  current_status : Nat
  temperature_status : Nat
  alarm_status : Nat
  fet_status : Nat
  overvoltage_protect : Nat
  undervoltage_protect : Nat
  overvoltage_alarm : Nat
  undervoltage_alarm : Nat
  balance_status : Nat


/-- Sequential parse of the 13 `BatteryMid` fields starting at cursor
`pos` (the source's `pos += k` increments constant-folded). -/
def parseBatteryMid (decoded : List Char) (pos : Nat) :
    Option (BatteryMid × Nat) :=
  match convert_signed decoded pos 4 100 with
  | none => none
  | some current =>
  match parseHexNat (strSlice decoded (pos + 4) 4) with
  | none => none
  | some internal_resistance =>
  match parseHexNat (strSlice decoded (pos + 8) 4) with
  | none => none
  | some soh =>
  match parseHexNat (strSlice decoded (pos + 12) 2) with
  | none => none
  | some user_defined =>
  match parseHexNat (strSlice decoded (pos + 14) 4) with
  | none => none
  | some full_raw =>
  match parseHexNat (strSlice decoded (pos + 18) 4) with
  | none => none
  | some remaining_raw =>
  match parseHexNat (strSlice decoded (pos + 22) 4) with
  | none => none
  | some cycle_count =>
  match parseHexNat (strSlice decoded (pos + 26) 4) with
  | none => none
  | some max_cell_voltage =>
  match parseHexNat (strSlice decoded (pos + 30) 4) with
  | none => none
  | some min_cell_voltage =>
  match convert_signed decoded (pos + 34) 4 10 with
  | none => none
  | some max_cell_temp =>
  match convert_signed decoded (pos + 38) 4 10 with
  | none => none
  | some min_cell_temp =>
  match parseHexNat (strSlice decoded (pos + 42) 4) with
  | none => none
  | some unknown_3 =>
  match parseHexNat (strSlice decoded (pos + 46) 4) with
  | none => none
  | some unknown_4 =>
  some (⟨current, internal_resistance, soh, user_defined,
    (full_raw : Rat) / 100, (remaining_raw : Rat) / 100, cycle_count,
    max_cell_voltage, min_cell_voltage, max_cell_temp, min_cell_temp,
    unknown_3, unknown_4⟩, pos + 50)

/-- Sequential parse of the 14 `BatteryStatusRun` fields starting at
cursor `pos`. -/
def parseBatteryStatusRun (decoded : List Char) (pos : Nat) :
    Option (BatteryStatusRun × Nat) :=
  match convert_signed decoded pos 4 10 with
  | none => none
  | some avg_cell_temp =>
  match parseHexNat (strSlice decoded (pos + 4) 4) with
  | none => none
  | some average_cell_voltage =>
  match parseHexNat (strSlice decoded (pos + 8) 4) with
  | none => none
  | some total_charge =>
  match parseHexNat (strSlice decoded (pos + 12) 4) with
  | none => none
  | some total_discharge =>
  match parseHexNat (strSlice decoded (pos + 16) 4) with
  | none => none
  | some voltage_status =>
  match parseHexNat (strSlice decoded (pos + 20) 4) with
  | none => none
  | some current_status =>
  match parseHexNat (strSlice decoded (pos + 24) 4) with
  | none => none
  | some temperature_status =>
  match parseHexNat (strSlice decoded (pos + 28) 4) with
  | none => none
  | some alarm_status =>
  match parseHexNat (strSlice decoded (pos + 32) 4) with
  | none => none
  | some fet_status =>
  match parseHexNat (strSlice decoded (pos + 36) 4) with
  | none => none
  | some overvoltage_protect =>
  match parseHexNat (strSlice decoded (pos + 40) 4) with
  | none => none
  | some undervoltage_protect =>
  match parseHexNat (strSlice decoded (pos + 44) 4) with
  | none => none
  | some overvoltage_alarm =>
  match parseHexNat (strSlice decoded (pos + 48) 4) with
  | none => none
  | some undervoltage_alarm =>
  match parseHexNat (strSlice decoded (pos + 52) 4) with
  | none => none
  | some balance_status =>
  some (⟨avg_cell_temp, average_cell_voltage, total_charge,
    total_discharge, voltage_status, current_status, temperature_status,
    alarm_status, fet_status, overvoltage_protect, undervoltage_protect,
    overvoltage_alarm, undervoltage_alarm, balance_status⟩, pos + 56)

/-- Source `_parse_battery_block(decoded, pos)` (coordinator.py:469-758).  The
source's single sequence of field reads is staged here: the
self-describing prefix (battery header, SOC, pack voltage, cell count,
the cell-voltage run, the three temperatures, the sensor count and the
pack-temperature run), then the two fixed-width runs `parseBatteryMid`
and `parseBatteryStatusRun`.  Cursor offsets are the source's running
`pos` with the constant `pos += k` increments folded; the returned next
offset is the cursor after Balance Status. -/
def parse_battery_block (decoded : List Char) (pos : Nat) :
    Option (BatteryData × Nat) :=
  match parseHexNat (strSlice decoded pos 2) with
  | none => none
  | some number =>
  match parseHexNat (strSlice decoded (pos + 4) 2) with
  | none => none
  | some soc =>
  match parseHexNat (strSlice decoded (pos + 6) 4) with
  | none => none
  | some voltage_raw =>
  match parseHexNat (strSlice decoded (pos + 10) 2) with
  | none => none
  | some cell_count =>
  match parseCells decoded cell_count (pos + 12) with
  | none => none
  | some cp =>
  match convert_signed decoded cp.2 4 10 with
  | none => none
  | some ambient_temperature =>
  match convert_signed decoded (cp.2 + 4) 4 10 with
  | none => none
  | some pack_avg_temperature =>
  match convert_signed decoded (cp.2 + 8) 4 10 with
  | none => none
  | some mos_temperature =>
  match parseHexNat (strSlice decoded (cp.2 + 12) 2) with
  | none => none
  | some temp_sensor_count =>
  match parseTemps decoded temp_sensor_count (cp.2 + 14) with
  | none => none
  | some tp =>
  match parseBatteryMid decoded tp.2 with
  | none => none
  | some mp =>
  match parseBatteryStatusRun decoded mp.2 with
  | none => none
  | some sp =>
  some (⟨number, soc, (voltage_raw : Rat) / 100, cell_count, cp.1,
    ambient_temperature, pack_avg_temperature, mos_temperature,
    temp_sensor_count, tp.1, mp.1.current, mp.1.internal_resistance,
    mp.1.soh, mp.1.user_defined, mp.1.full_charge_capacity,
    mp.1.remaining_capacity, mp.1.cycle_count, mp.1.max_cell_voltage,
    mp.1.min_cell_voltage, mp.1.max_cell_temp, mp.1.min_cell_temp,
    mp.1.unknown_3, mp.1.unknown_4, sp.1.avg_cell_temp,
    sp.1.average_cell_voltage, sp.1.total_charge, sp.1.total_discharge,
    sp.1.voltage_status, sp.1.current_status, sp.1.temperature_status,
    sp.1.alarm_status, sp.1.fet_status, sp.1.overvoltage_protect,
    sp.1.undervoltage_protect, sp.1.overvoltage_alarm,
    sp.1.undervoltage_alarm, sp.1.balance_status⟩, sp.2)

/-- Group/system view produced by `_transform_group_data`
(coordinator.py:834-870): a field-for-field copy of the parsed header. -/
structure GroupData where
  voltage : Rat
  current : Rat
  total_capacity : Nat
  remaining_capacity : Nat
  soc : Nat
  max_ambient_temp : Rat
  min_ambient_temp : Rat
  max_cell_voltage : Nat
  min_cell_voltage : Nat
  temperature_min : Rat
  temperature_max : Rat
  reserved : List Char
  cell_count : Nat
  battery_count : Nat


/-- Source `_transform_group_data(header_data)` (coordinator.py:834-870). -/
def transform_group_data (h : HeaderData) : GroupData :=
  ⟨h.voltage, h.current, h.total_capacity, h.remaining_capacity, h.soc,
   h.max_ambient_temp, h.min_ambient_temp, h.max_cell_voltage,
   h.min_cell_voltage, h.temperature_min, h.temperature_max, h.reserved,
   h.cell_count, h.battery_count⟩

/-- Status sub-record of `_transform_battery_data`
(coordinator.py:936-942). -/
structure SensorStatus where
  voltage : Nat
  current : Nat
  temperature : Nat
  alarm : Nat
  fet : Nat


/-- Protection sub-record of `_transform_battery_data`
(coordinator.py:945-951). -/
structure SensorProtection where
  overvoltage_protect : Nat
  undervoltage_protect : Nat
  overvoltage_alarm : Nat
  undervoltage_alarm : Nat
  balance_status : Nat


/-- Sensor-facing battery record produced by `_transform_battery_data`
(coordinator.py:872-952). -/
structure SensorBattery where
  number : Nat
  soc : Nat
  voltage : Rat
  cell_count : Nat
  cell_voltages : List Rat
  temp_count : Nat
  temperatures : List Rat
  ambient_temperature : Rat
  pack_avg_temperature : Rat
  mos_temperature : Rat
  current : Rat
  internal_resistance : Nat
  soh : Nat
  user_defined : Nat
  full_capacity : Rat
  remaining_capacity : Rat
  cycle_count : Nat
  max_cell_voltage : Nat
  min_cell_voltage : Nat
  average_cell_voltage : Nat
  total_charge : Nat
  total_discharge : Nat
  max_cell_temp : Rat
  min_cell_temp : Rat
  unknown_3 : Nat
  unknown_4 : Nat
  avg_cell_temp : Rat
  status : SensorStatus
  protection : SensorProtection


/-- Source `_transform_battery_data(battery_data, battery_num)`
(coordinator.py:872-952).  The stored battery number is the parsed
0-based wire value plus 1; the `battery_num` argument is only logged by
the source, and `cell_count` is the length of the parsed cell list (not
the wire count byte). -/
def transform_battery_data (b : BatteryData) (battery_num : Nat) : SensorBattery :=
  ⟨b.number + 1, b.soc, b.voltage, b.cells.length, b.cells,
   b.pack_temp_sensor_count, b.pack_temperatures, b.ambient_temperature,
   b.pack_avg_temperature, b.mos_temperature, b.current,
   b.internal_resistance, b.soh, b.user_defined, b.full_charge_capacity,
   b.remaining_capacity, b.cycle_count, b.max_cell_voltage,
   b.min_cell_voltage, b.average_cell_voltage, b.total_charge,
   b.total_discharge, b.max_cell_temp, b.min_cell_temp, b.unknown_3,
   b.unknown_4, b.avg_cell_temp,
   ⟨b.voltage_status, b.current_status, b.temperature_status,
    b.alarm_status, b.fet_status⟩,
   ⟨b.overvoltage_protect, b.undervoltage_protect, b.overvoltage_alarm,
    b.undervoltage_alarm, b.balance_status⟩⟩

/-- The coordinator's `self.data` dictionary: the `"raw_system"` entry,
the `"group"` entry, and the integer-keyed battery entries (in insertion
order). -/
structure Snapshot where
  rawSystem : Option HeaderData
  group : Option GroupData
  batteries : List (Nat × SensorBattery)


/-- The freshly-cleared `self.data = {}` (coordinator.py:802). -/
def Snapshot.empty : Snapshot := ⟨none, none, []⟩

/-- The per-battery loop of `_async_update_data` (coordinator.py:815-822):
`k` remaining iterations, `i` the 0-based loop index, `pos` the running
cursor.  On a per-battery parse failure the source logs and `continue`s
without having updated `pos`, so the next iteration retries at the same
cursor. -/
def batteryLoop (decoded : List Char) :
    Nat → Nat → Nat → List (Nat × SensorBattery) → List (Nat × SensorBattery)
  | 0, _, _, acc => acc
  | k + 1, i, pos, acc =>
    match parse_battery_block decoded pos with
    | some bp =>
      batteryLoop decoded k (i + 1) bp.2
        (acc ++ [(i + 1, transform_battery_data bp.1 (i + 1))])
    | none => batteryLoop decoded k (i + 1) pos acc

/-- Python `response[1:-1]` stripping SOI and EOI before decoding
(coordinator.py:798). -/
def strip_frame (resp : List Char) : List Char :=
  (resp.drop 1).dropLast

/-- Source `_async_update_data` (coordinator.py:785-832) with the transport
determinized: `response` is what `_send_command` returned (`none` for a
timeout/no-response) and `prev` is the coordinator's `self.data` before
the cycle.  On no response the previous snapshot is returned untouched;
otherwise `self.data` is cleared *before* the header parse, so a header
parse failure returns the empty snapshot; on success the group entries
are stored and the battery loop runs `battery_count` times. -/
def runPollCycle (prev : Snapshot) (response : Option (List Char)) : Snapshot :=
  match response with
  | none => prev
  | some resp =>
    let decoded := strip_frame resp
    match parse_header_block decoded 12 with
    | none => Snapshot.empty
    | some hp =>
      { rawSystem := some hp.1
        group := some (transform_group_data hp.1)
        batteries := batteryLoop decoded hp.1.battery_count 0 hp.2 [] }

/-- The constructor's capping of the configured battery count:
`self._battery_count = min(battery_count, 12)` (coordinator.py:64). -/
def stored_battery_count (battery_count : Nat) : Nat :=
  min battery_count 12

/-- Source `_validate_response(response)` (coordinator.py:314-350): extract the
RTN field at positions 6-8 of the stripped frame, reject unknown codes,
reject known non-`"00"` codes, accept `"00"`. -/
def validate_response (response : List Char) : Bool :=
  let hex_str := (response.drop 1).dropLast
  let rtn := strSlice hex_str 6 2
  let rtn_codes : List (List Char) :=
    [['0', '0'], ['0', '1'], ['0', '2'], ['0', '3'], ['0', '4'],
     ['0', '5'], ['0', '6'], ['9', '0'], ['9', '1']]
  if rtn ∉ rtn_codes then false
  else if rtn ≠ ['0', '0'] then false
  else true

/-- Frame delimiter gate of `_read_response` (coordinator.py:363):
`response.startswith(b"~") and response.endswith(b"\r")`. -/
def frameDelimited (r : List Char) : Bool :=
  r.head? == some '~' && r.getLast? == some '\x0D'

/-- The four gates of `_read_response` in source order: delimiters,
checksum, minimum viable length (30), RTN code. -/
def passesGates (r : List Char) : Bool :=
  frameDelimited r && verify_checksum r && !(decide (r.length < 30))
    && validate_response r

/-- Source `_read_response` (coordinator.py:352-389) with the transport
determinized: `frames` is the sequence of candidate frames `readuntil`
delivers within the timeout window; the loop drops any frame failing one
of the four gates and returns the first that passes all of them, or
`none` if the sequence is exhausted (timeout). -/
def read_response : List (List Char) → Option (List Char)
  | [] => none
  | r :: rs =>
    if frameDelimited r = false then read_response rs
    else if verify_checksum r = false then read_response rs
    else if r.length < 30 then read_response rs
    else if validate_response r = false then read_response rs
    else some r

/-- A 212-hex-digit battery block: cell-count byte `10` (16) at digits
10-11, temp-sensor-count byte `04` at digits 88-89, all other digits
`0`. -/
def c6input : List Char :=
  List.replicate 10 '0' ++ ['1', '0'] ++ List.replicate 76 '0'
    ++ ['0', '4'] ++ List.replicate 122 '0'

/-- The record `_parse_battery_block` produces on `c6input`. -/
def c6battery : BatteryData :=
  ⟨0, 0, (0 : Rat) / 100, 16, List.replicate 16 ((0 : Rat) / 1000),
   ((0 : Int) : Rat) / 10, ((0 : Int) : Rat) / 10, ((0 : Int) : Rat) / 10,
   4, List.replicate 4 (((0 : Int) : Rat) / 10),
   ((0 : Int) : Rat) / 100, 0, 0, 0, (0 : Rat) / 100, (0 : Rat) / 100,
   0, 0, 0, ((0 : Int) : Rat) / 10, ((0 : Int) : Rat) / 10, 0, 0,
   ((0 : Int) : Rat) / 10, 0, 0, 0, 0, 0, 0, 0, 0, 0, 0, 0, 0, 0⟩

/-- The 66-hex-digit header window of the spec's §8 example: voltage
`15A5`, current `0000`, capacities `01A4`/`01A4`, SOC `0064`, ambient
temps `00A0`/`0096`, cell-voltage extremes `0E2A`/`0D1A`, then `0082` at
digits 36-39 (the documented Temperature Min position) and `0050` at
digits 40-43, 18 reserved zeros, cell count `10`, battery count `04`. -/
def c7window : List Char :=
  ("15A5000001A401A40064" ++ "00A000960E2A0D1A" ++ "00820050"
    ++ "000000000000000000" ++ "1004").toList

/-- The §8 example response: 12 preamble digits then `c7window` at
offset 12. -/
def c7decoded : List Char := List.replicate 12 '0' ++ c7window

/-- The header record `_parse_header_block` produces on `c7decoded`:
note `temperature_min = 0` (decoded from digits 44-47, the start of the
reserved span) rather than 13 (digits 36-39, the documented position,
which the code never reads). -/
def c7hdr : HeaderData :=
  ⟨(5541 : Rat) / 100, ((0 : Int) : Rat) / 1, 420, 420, 100,
   ((160 : Int) : Rat) / 10, ((150 : Int) : Rat) / 10, 3626, 3354,
   ((80 : Int) : Rat) / 10, ((0 : Int) : Rat) / 10,
   List.replicate 18 '0', 16, 4⟩

/-- A concrete nonempty previous snapshot: a group entry is present. -/
def c1group : GroupData := ⟨0, 0, 0, 0, 0, 0, 0, 0, 0, 0, 0, [], 0, 0⟩

/-- A previous snapshot holding a group entry. -/
def c1prev : Snapshot := ⟨none, some c1group, []⟩

/-- A delimited response whose INFO is garbage: the header-stage parse
raises (non-hex digits at the voltage field). -/
def c1badResp : List Char :=
  '~' :: (List.replicate 12 '0' ++ ['Z', 'Z', 'Z', 'Z', '\x0D'])

/-- Decoded response for C2: header reports 2 batteries (digits 76-77 =
`02`); the first battery block region (starting at 78) begins with
non-hex `ZZ` so its parse raises; the second block region at the nominal
offset 290 is a well-formed all-zero block. -/
def c2decoded : List Char :=
  List.replicate 76 '0' ++ ['0', '2'] ++ (['Z', 'Z'] ++ List.replicate 210 '0')
    ++ List.replicate 212 '0'

/-- The framed version of `c2decoded`. -/
def c2resp : List Char := '~' :: c2decoded ++ ['\x0D']

/-- The header record parsed from `c2decoded` (battery count 2). -/
def c2hdr : HeaderData :=
  ⟨(0 : Rat) / 100, ((0 : Int) : Rat) / 1, 0, 0, 0,
   ((0 : Int) : Rat) / 10, ((0 : Int) : Rat) / 10, 0, 0,
   ((0 : Int) : Rat) / 10, ((0 : Int) : Rat) / 10,
   List.replicate 18 '0', 0, 2⟩

/-- Decoded response for C10: header reports 2 batteries (digits 76-77
= `02`) followed by 2 well-formed all-zero blocks (each 132 digits, as
cell count and sensor count are 0). -/
def c10decoded : List Char :=
  List.replicate 76 '0' ++ ['0', '2'] ++ List.replicate (2 * 132) '0'

/-- The framed version of `c10decoded`. -/
def c10resp : List Char := '~' :: c10decoded ++ ['\x0D']

/-- The all-zero battery record each block of `c10decoded` parses to
(cell count 0, sensor count 0). -/
def c10block : BatteryData :=
  ⟨0, 0, (0 : Rat) / 100, 0, [],
   ((0 : Int) : Rat) / 10, ((0 : Int) : Rat) / 10, ((0 : Int) : Rat) / 10,
   0, [],
   ((0 : Int) : Rat) / 100, 0, 0, 0, (0 : Rat) / 100, (0 : Rat) / 100,
   0, 0, 0, ((0 : Int) : Rat) / 10, ((0 : Int) : Rat) / 10, 0, 0,
   ((0 : Int) : Rat) / 10, 0, 0, 0, 0, 0, 0, 0, 0, 0, 0, 0, 0, 0⟩

/-- The header record parsed from `c10decoded` (battery count 2). -/
def c10hdr : HeaderData :=
  ⟨(0 : Rat) / 100, ((0 : Int) : Rat) / 1, 0, 0, 0,
   ((0 : Int) : Rat) / 10, ((0 : Int) : Rat) / 10, 0, 0,
   ((0 : Int) : Rat) / 10, ((0 : Int) : Rat) / 10,
   List.replicate 18 '0', 0, 2⟩

/-- A valid 30-byte response frame: VER `22`, ADR `00`, CID1 `4A`, RTN
`00`, 16 zero INFO digits, correct checksum `FB67`. -/
def c9good : List Char :=
  '~' :: (("22004A00" ++ "0000000000000000" ++ "FB67").toList ++ ['\x0D'])

/-- A short noise frame that fails the checksum and length gates. -/
def c9bad : List Char := '~' :: ("00".toList ++ ['\x0D'])

theorem parseHexGo_append (acc : Nat) (xs ys : List Char) :
    parseHexGo acc (xs ++ ys)
      = match parseHexGo acc xs with
        | some a => parseHexGo a ys
        | none => none := by
  induction xs generalizing acc with
  | nil => simp [parseHexGo]
  | cons c cs ih =>
    simp only [List.cons_append, parseHexGo]
    cases hexDigitVal c with
    | none => rfl
    | some d => exact ih _

theorem hexDigitVal_hexDigitChar {d : Nat} (h : d < 16) :
    hexDigitVal (hexDigitChar d) = some d := by
  interval_cases d <;> rfl

theorem hexDigitChar_bounds (d : Nat) :
    48 ≤ (hexDigitChar d).toNat ∧ (hexDigitChar d).toNat ≤ 70 := by
  rcases Nat.lt_or_ge d 16 with h | h
  · interval_cases d <;> exact ⟨by decide, by decide⟩
  · have : hexDigitChar d = '0' := by
      unfold hexDigitChar
      exact List.getD_eq_default _ _ (by simpa using h)
    rw [this]; exact ⟨by decide, by decide⟩

theorem toHexAux_fuel_irrel :
    ∀ n f₁ f₂, n < f₁ → n < f₂ → toHexAux f₁ n = toHexAux f₂ n := by
  intro n
  induction n using Nat.strong_induction_on with
  | _ n ih =>
    intro f₁ f₂ h₁ h₂
    match f₁, f₂ with
    | g₁ + 1, g₂ + 1 =>
      simp only [toHexAux]
      by_cases hn : n < 16
      · simp [hn]
      · simp only [hn, if_false]
        have hdiv : n / 16 < n := Nat.div_lt_self (by omega) (by omega)
        rw [ih (n / 16) hdiv (g₁) (g₂) (by omega) (by omega)]

theorem toHexUpper_eq (n : Nat) :
    toHexUpper n
      = if n < 16 then [hexDigitChar n]
        else toHexUpper (n / 16) ++ [hexDigitChar (n % 16)] := by
  by_cases hn : n < 16
  · simp only [hn, if_true]
    show toHexAux (n + 1) n = _
    simp [toHexAux, hn]
  · simp only [hn, if_false]
    show toHexAux (n + 1) n = toHexAux (n / 16 + 1) (n / 16) ++ [hexDigitChar (n % 16)]
    have step : toHexAux (n + 1) n = toHexAux n (n / 16) ++ [hexDigitChar (n % 16)] := by
      simp [toHexAux, hn]
    have hdiv : n / 16 < n := Nat.div_lt_self (by omega) (by omega)
    rw [step, toHexAux_fuel_irrel (n / 16) n (n / 16 + 1) (by omega) (by omega)]

theorem parseHexGo_toHexUpper (n : Nat) :
    parseHexGo 0 (toHexUpper n) = some n := by
  induction n using Nat.strong_induction_on with
  | _ n ih =>
    rw [toHexUpper_eq]
    by_cases hn : n < 16
    · simp [hn, parseHexGo, hexDigitVal_hexDigitChar hn]
    · simp only [hn, if_false]
      rw [parseHexGo_append]
      have hdiv : n / 16 < n := Nat.div_lt_self (by omega) (by omega)
      rw [ih (n / 16) hdiv]
      have hmod : n % 16 < 16 := Nat.mod_lt _ (by omega)
      simp [parseHexGo, hexDigitVal_hexDigitChar hmod, Nat.div_add_mod]

theorem toHexUpper_ne_nil (n : Nat) : toHexUpper n ≠ [] := by
  rw [toHexUpper_eq]
  by_cases hn : n < 16 <;> simp [hn]

theorem parseHexGo_replicate_zero (k : Nat) (s : List Char) :
    parseHexGo 0 (List.replicate k '0' ++ s) = parseHexGo 0 s := by
  induction k with
  | zero => rfl
  | succ k ih =>
    simp only [List.replicate_succ, List.cons_append, parseHexGo]
    have h0 : hexDigitVal '0' = some 0 := by decide
    rw [h0]
    simpa using ih

theorem parseHexNat_hexPad (w n : Nat) :
    parseHexNat (hexPad w n) = some n := by
  unfold parseHexNat hexPad
  have hne : ¬(List.replicate (w - (toHexUpper n).length) '0'
      ++ toHexUpper n).isEmpty = true := by
    simp [List.isEmpty_iff, toHexUpper_ne_nil n]
  rw [if_neg hne, parseHexGo_replicate_zero, parseHexGo_toHexUpper]

theorem toHexUpper_mem_bounds (n : Nat) :
    ∀ c ∈ toHexUpper n, 48 ≤ c.toNat ∧ c.toNat ≤ 70 := by
  induction n using Nat.strong_induction_on with
  | _ n ih =>
    rw [toHexUpper_eq]
    by_cases hn : n < 16
    · simp only [hn, if_true, List.mem_singleton]
      rintro c rfl
      exact hexDigitChar_bounds n
    · simp only [hn, if_false, List.mem_append, List.mem_singleton]
      intro c hc
      rcases hc with hc | rfl
      · exact ih (n / 16) (Nat.div_lt_self (by omega) (by omega)) c hc
      · exact hexDigitChar_bounds (n % 16)

theorem toHexUpper_length_le {k n : Nat} (hk : 0 < k) (h : n < 16 ^ k) :
    (toHexUpper n).length ≤ k := by
  induction k generalizing n with
  | zero => omega
  | succ k ih =>
    rw [toHexUpper_eq]
    by_cases hn : n < 16
    · simp [hn]
    · simp only [hn, if_false, List.length_append, List.length_singleton]
      have hk' : 0 < k := by
        rcases Nat.eq_zero_or_pos k with rfl | h'
        · exfalso; apply hn
          have h16 : (16 : Nat) ^ (0 + 1) = 16 := by norm_num
          omega
        · exact h'
      have hdiv : n / 16 < 16 ^ k := by
        rw [Nat.div_lt_iff_lt_mul (by omega)]
        calc n < 16 ^ (k + 1) := h
        _ = 16 ^ k * 16 := by ring
      have := ih hk' hdiv
      omega

theorem hexPad_length {w n k : Nat} (hw : w = k) (hk : 0 < k) (h : n < 16 ^ k) :
    (hexPad w n).length = w := by
  subst hw
  unfold hexPad
  have := toHexUpper_length_le hk h
  simp only [List.length_append, List.length_replicate]
  omega

theorem parseCells_spec (decoded : List Char) :
    ∀ n pos r, parseCells decoded n pos = some r →
      r.1.length = n ∧ r.2 = pos + 4 * n := by
  intro n
  induction n with
  | zero =>
    intro pos r h
    cases h
    exact ⟨rfl, rfl⟩
  | succ n ih =>
    intro pos r h
    unfold parseCells at h
    split at h
    · exact Option.noConfusion h
    · split at h
      · exact Option.noConfusion h
      · rename_i rest pos2 hrest
        cases h
        obtain ⟨hlen, hpos⟩ := ih (pos + 4) _ hrest
        simp only at hlen hpos
        constructor
        · simpa using hlen
        · simp only [hpos]; omega

theorem parseTemps_spec (decoded : List Char) :
    ∀ n pos r, parseTemps decoded n pos = some r →
      r.1.length = n ∧ r.2 = pos + 4 * n := by
  intro n
  induction n with
  | zero =>
    intro pos r h
    cases h
    exact ⟨rfl, rfl⟩
  | succ n ih =>
    intro pos r h
    unfold parseTemps at h
    split at h
    · exact Option.noConfusion h
    · split at h
      · exact Option.noConfusion h
      · rename_i rest pos2 hrest
        cases h
        obtain ⟨hlen, hpos⟩ := ih (pos + 4) _ hrest
        simp only at hlen hpos
        constructor
        · simpa using hlen
        · simp only [hpos]; omega

theorem parseBatteryMid_pos (decoded : List Char) (pos : Nat) (r : BatteryMid × Nat)
    (h : parseBatteryMid decoded pos = some r) : r.2 = pos + 50 := by
  unfold parseBatteryMid at h
  repeat' split at h
  all_goals first
    | exact Option.noConfusion h
    | (cases h; rfl)

theorem parseBatteryStatusRun_pos (decoded : List Char) (pos : Nat)
    (r : BatteryStatusRun × Nat)
    (h : parseBatteryStatusRun decoded pos = some r) : r.2 = pos + 56 := by
  unfold parseBatteryStatusRun at h
  repeat' split at h
  all_goals first
    | exact Option.noConfusion h
    | (cases h; rfl)

theorem parse_battery_block_spec (decoded : List Char) (pos : Nat)
    (bp : BatteryData × Nat)
    (h : parse_battery_block decoded pos = some bp) :
    bp.1.cells.length = bp.1.cell_count ∧
    bp.1.pack_temperatures.length = bp.1.pack_temp_sensor_count ∧
    bp.2 = pos + 12 + 4 * bp.1.cell_count + 14 + 4 * bp.1.pack_temp_sensor_count + 106 ∧
    parseHexNat (strSlice decoded (pos + 10) 2) = some bp.1.cell_count ∧
    parseHexNat (strSlice decoded (pos + 12 + 4 * bp.1.cell_count + 12) 2)
      = some bp.1.pack_temp_sensor_count := by
  unfold parse_battery_block at h
  repeat' split at h
  all_goals try exact Option.noConfusion h
  rename_i x1 number hnum x2 soc hsoc x3 vraw hvraw x4 cc hcc x5 cp hcp
    x6 amb hamb x7 pavg hpavg x8 mos hmos x9 tsc htsc x10 tp htp
    x11 mp hmp x12 sp hsp
  cases h
  obtain ⟨hclen, hcpos⟩ := parseCells_spec decoded cc (pos + 12) cp hcp
  obtain ⟨htlen, htpos⟩ := parseTemps_spec decoded tsc (cp.2 + 14) tp htp
  have hmpos := parseBatteryMid_pos decoded tp.2 mp hmp
  have hspos := parseBatteryStatusRun_pos decoded mp.2 sp hsp
  refine ⟨hclen, htlen, ?_, hcc, ?_⟩ <;> dsimp only
  · omega
  · rw [show pos + 12 + 4 * cc + 12 = cp.2 + 12 from by omega]
    exact htsc

theorem xor_lt_two_pow_16 {a b : Nat} (ha : a < 65536) (hb : b < 65536) :
    a ^^^ b < 65536 := by
  have h : Nat.bitwise bne a b < 2 ^ 16 :=
    Nat.bitwise_lt (by norm_num; omega) (by norm_num; omega)
  simpa using h

theorem xor_ffff_ne_ffff {r : Nat} (h0 : r ≠ 0) : r ^^^ 65535 ≠ 65535 := by
  intro hcon
  apply h0
  have : r ^^^ 65535 = 0 ^^^ 65535 := by
    rw [hcon]; simp
  exact Nat.xor_left_inj.mp this

theorem charSum_le (l : List Char) (bound : Nat)
    (h : ∀ c ∈ l, c.toNat ≤ bound) : charSum l ≤ bound * l.length := by
  induction l with
  | nil => simp [charSum]
  | cons c cs ih =>
    have hc := h c (List.mem_cons_self c cs)
    have hcs := ih (fun x hx => h x (List.mem_cons_of_mem c hx))
    simp only [charSum, List.map_cons, List.sum_cons, List.length_cons] at *
    calc c.toNat + (cs.map Char.toNat).sum ≤ bound + bound * cs.length := by omega
    _ = bound * (cs.length + 1) := by ring

theorem charSum_ge (l : List Char) (bound : Nat)
    (h : ∀ c ∈ l, bound ≤ c.toNat) : bound * l.length ≤ charSum l := by
  induction l with
  | nil => simp [charSum]
  | cons c cs ih =>
    have hc := h c (List.mem_cons_self c cs)
    have hcs := ih (fun x hx => h x (List.mem_cons_of_mem c hx))
    simp only [charSum, List.map_cons, List.sum_cons, List.length_cons] at *
    calc bound * (cs.length + 1) = bound + bound * cs.length := by ring
    _ ≤ c.toNat + (cs.map Char.toNat).sum := by omega

theorem hexPad_mem_bounds (w n : Nat) :
    ∀ c ∈ hexPad w n, 48 ≤ c.toNat ∧ c.toNat ≤ 70 := by
  intro c hc
  unfold hexPad at hc
  simp only [List.mem_append, List.mem_replicate] at hc
  rcases hc with ⟨_, rfl⟩ | hc
  · exact ⟨by decide, by decide⟩
  · exact toHexUpper_mem_bounds n c hc

theorem charSum_append (l1 l2 : List Char) :
    charSum (l1 ++ l2) = charSum l1 + charSum l2 := by
  simp [charSum]

theorem hexDigitVal_isSome_bounds {c : Char} (h : (hexDigitVal c).isSome) :
    48 ≤ c.toNat ∧ c.toNat ≤ 102 := by
  unfold hexDigitVal at h
  split at h
  · rename_i hr
    have h1 : 48 ≤ c.toNat := hr.1
    have h2 : c.toNat ≤ 57 := hr.2
    exact ⟨h1, by omega⟩
  · split at h
    · rename_i _ hr
      have h1 : 65 ≤ c.toNat := hr.1
      have h2 : c.toNat ≤ 70 := hr.2
      exact ⟨by omega, by omega⟩
    · split at h
      · rename_i _ _ hr
        have h1 : 97 ≤ c.toNat := hr.1
        have h2 : c.toNat ≤ 102 := hr.2
        exact ⟨by omega, by omega⟩
      · simp at h

/-- Core checksum round-trip: for any command body whose character-code
sum is nonzero and below 65536, the built frame verifies. -/
theorem verify_build_core (body : List Char)
    (hpos : 0 < charSum body) (hlt : charSum body < 65536) :
    verify_checksum
      ('~' :: (body ++ hexPad 4 (((charSum body % 65536) ^^^ 0xFFFF) + 1)
        ++ ['\x0D'])) = true := by
  set checksum := ((charSum body % 65536) ^^^ 0xFFFF) + 1 with hchk
  have hr : charSum body % 65536 = charSum body := Nat.mod_eq_of_lt hlt
  have hxlt : (charSum body % 65536) ^^^ 0xFFFF < 65536 :=
    xor_lt_two_pow_16 (by omega) (by norm_num)
  have hxne : (charSum body % 65536) ^^^ 0xFFFF ≠ 65535 := by
    rw [hr]
    exact xor_ffff_ne_ffff (by omega)
  have hchklt : checksum < 65536 := by rw [hchk]; omega
  have hpad : (hexPad 4 checksum).length = 4 :=
    hexPad_length rfl (by norm_num) (by norm_num; omega)
  unfold verify_checksum
  simp only [List.drop_succ_cons, List.drop_zero]
  rw [show body ++ hexPad 4 checksum ++ ['\x0D']
      = (body ++ hexPad 4 checksum) ++ ['\x0D'] from by simp,
    List.dropLast_concat]
  have hlen : (body ++ hexPad 4 checksum).length - 4 = body.length := by
    simp [hpad]
  rw [hlen]
  rw [show (body ++ hexPad 4 checksum).drop body.length
      = hexPad 4 checksum from List.drop_left body _,
    show (body ++ hexPad 4 checksum).take body.length
      = body from List.take_left body _]
  rw [parseHexNat_hexPad]
  simp

/-- Claim C3: for every command code (two hex-digit characters), every
battery-number argument (including absent) and every group number for
which the computed address renders as a two-digit hex byte, the frame
produced by `_build_command` passes `_verify_checksum`. -/
theorem C3_checksum_roundtrip (cmd1 cmd2 : Char) (battery_number : Option Nat)
    (group_number : Nat)
    (h1 : (hexDigitVal cmd1).isSome) (h2 : (hexDigitVal cmd2).isSome)
    (haddr : calculate_address battery_number group_number < 256) :
    verify_checksum (build_command [cmd1, cmd2] battery_number group_number)
      = true := by
  unfold build_command
  apply verify_build_core
  all_goals
    have hadrlen : (hexPad 2 (calculate_address battery_number group_number)).length = 2 :=
      hexPad_length rfl (by norm_num) (by norm_num; omega)
    have hadrle : charSum (hexPad 2 (calculate_address battery_number group_number)) ≤ 140 := by
      have := charSum_le (hexPad 2 (calculate_address battery_number group_number)) 70
        (fun c hc => (hexPad_mem_bounds 2 _ c hc).2)
      omega
    have hadrge : 96 ≤ charSum (hexPad 2 (calculate_address battery_number group_number)) := by
      have := charSum_ge (hexPad 2 (calculate_address battery_number group_number)) 48
        (fun c hc => (hexPad_mem_bounds 2 _ c hc).1)
      omega
    have hc1 := hexDigitVal_isSome_bounds h1
    have hc2 := hexDigitVal_isSome_bounds h2
    simp only [charSum_append, List.append_assoc]
    simp only [charSum, List.map_cons, List.map_nil, List.sum_cons,
      List.sum_nil] at *
    have e0 : '0'.toNat = 48 := rfl
    have e2 : '2'.toNat = 50 := rfl
    have e4 : '4'.toNat = 52 := rfl
    have eA : 'A'.toNat = 65 := rfl
    have eE : 'E'.toNat = 69 := rfl
    have eF : 'F'.toNat = 70 := rfl
    omega

/-- Witness for C3 at the analog-data query `"42"`, absent battery
number, group 0. -/
theorem C3_checksum_roundtrip_witness :
    ((hexDigitVal '4').isSome ∧ (hexDigitVal '2').isSome ∧
      calculate_address none 0 < 256) ∧
    verify_checksum (build_command ['4', '2'] none 0) = true :=
  ⟨⟨by decide, by decide, by decide⟩,
    C3_checksum_roundtrip '4' '2' none 0 (by decide) (by decide) (by decide)⟩

/-- Claim C4 (counterexample): `_calculate_checksum` applied to a frame
whose summed body is exactly 65536 (1024 bytes of value 64) returns
65536 = 0x10000, which is not strictly less than 65536 — the final
add-1 step does not wrap modulo 65536. -/
theorem C4_counterexample :
    calculate_checksum (126 :: (List.replicate 1024 64 ++ [0, 0, 0])) = 65536 ∧
    ¬ calculate_checksum (126 :: (List.replicate 1024 64 ++ [0, 0, 0])) < 65536 := by
  constructor
  · decide
  · decide

/-- Claim C4 (amended): the checksum lies in `[1, 65536]`; it is 65536
(not 0) exactly when the body's byte sum is a multiple of 65536, and
strictly less than 65536 otherwise. -/
theorem C4_amended (data : List Nat) :
    calculate_checksum data ≤ 65536 ∧
    (calculate_checksum data = 65536 ↔
      ((data.drop 1).take (data.length - 4)).sum % 65536 = 0) := by
  unfold calculate_checksum
  dsimp only
  set r := ((data.drop 1).take (data.length - 4)).sum % 65536 with hr
  have hrlt : r < 65536 := Nat.mod_lt _ (by norm_num)
  have hxlt : r ^^^ 0xFFFF < 65536 :=
    xor_lt_two_pow_16 hrlt (by norm_num)
  constructor
  · omega
  · constructor
    · intro heq
      by_contra h0
      exact xor_ffff_ne_ffff h0 (by omega)
    · intro h0
      rw [h0, Nat.zero_xor]

/-- Claim C5: `convert_signed` parses the `len` hex digits at `pos` as
unsigned, subtracts `2^(4*len)` exactly when the value is at least
`2^(4*len - 1)` (two's-complement fold over the field's own bit width),
and divides by the scale. -/
theorem C5_convert_signed (decoded : List Char) (pos len : Nat) (scale : Rat)
    (raw : Nat) (h : parseHexNat (strSlice decoded pos len) = some raw) :
    convert_signed decoded pos len scale
      = some ((((if 2 ^ (len * 4 - 1) ≤ raw then (raw : Int) - 2 ^ (len * 4)
          else (raw : Int)) : Int) : Rat) / scale) := by
  unfold convert_signed
  rw [h]

/-- Witness for C5: the three documented 16-bit examples at scale 1 —
`0xFFFF → -1`, `0x7FFF → 32767`, `0x8000 → -32768`. -/
theorem C5_convert_signed_witness :
    (parseHexNat (strSlice ['F', 'F', 'F', 'F'] 0 4) = some 65535 ∧
      convert_signed ['F', 'F', 'F', 'F'] 0 4 1 = some (-1)) ∧
    (parseHexNat (strSlice ['7', 'F', 'F', 'F'] 0 4) = some 32767 ∧
      convert_signed ['7', 'F', 'F', 'F'] 0 4 1 = some 32767) ∧
    (parseHexNat (strSlice ['8', '0', '0', '0'] 0 4) = some 32768 ∧
      convert_signed ['8', '0', '0', '0'] 0 4 1 = some (-32768)) := by
  refine ⟨⟨by decide, ?_⟩, ⟨by decide, ?_⟩, ⟨by decide, ?_⟩⟩
  · rw [C5_convert_signed _ 0 4 1 65535 (by decide)]
    norm_num
  · rw [C5_convert_signed _ 0 4 1 32767 (by decide)]
    norm_num
  · rw [C5_convert_signed _ 0 4 1 32768 (by decide)]
    norm_num

/-- Claim C8: `_build_command` with command `"42"`, absent battery
number and group 0 produces exactly `~22004A42E002FFFCFE\r`, and the
source's own reference computation `_verify_known_checksum` over the
body `"22004A42E002FF"` yields `0xFCFE`. -/
theorem C8_known_vector :
    build_command ['4', '2'] none 0
      = '~' :: ("22004A42E002FFFCFE".toList ++ ['\x0D']) ∧
    verify_known_checksum = 0xFCFE := by
  constructor
  · decide
  · decide

/-- Claim C6: for every input block at start offset `pos` whose
cell-count byte decodes to 16 and whose temp-sensor-count byte (at its
resulting position, digit offset 88) decodes to 4, a successful
`_parse_battery_block` returns 16 cell voltages, 4 pack temperatures,
and next offset `pos + 212`. -/
theorem C6_block_self_description (decoded : List Char) (pos : Nat)
    (bp : BatteryData × Nat)
    (h : parse_battery_block decoded pos = some bp)
    (hcell : parseHexNat (strSlice decoded (pos + 10) 2) = some 16)
    (htemp : parseHexNat (strSlice decoded (pos + 88) 2) = some 4) :
    bp.1.cells.length = 16 ∧ bp.1.pack_temperatures.length = 4 ∧
    bp.2 = pos + 212 := by
  obtain ⟨hclen, htlen, hpos, hcc, htsc⟩ :=
    parse_battery_block_spec decoded pos bp h
  have h16 : bp.1.cell_count = 16 :=
    Option.some.inj (hcc.symm.trans hcell)
  rw [h16] at htsc hpos
  have hpos88 : pos + 12 + 4 * 16 + 12 = pos + 88 := by omega
  rw [hpos88] at htsc
  have h4 : bp.1.pack_temp_sensor_count = 4 :=
    Option.some.inj (htsc.symm.trans htemp)
  rw [h4] at hpos
  exact ⟨hclen.trans h16, htlen.trans h4, by omega⟩

/-- Witness for C6 on the concrete block `c6input`. -/
theorem C6_block_self_description_witness :
    (parse_battery_block c6input 0 = some (c6battery, 212) ∧
      parseHexNat (strSlice c6input (0 + 10) 2) = some 16 ∧
      parseHexNat (strSlice c6input (0 + 88) 2) = some 4) ∧
    ((c6battery, (212 : Nat)).1.cells.length = 16 ∧
      (c6battery, (212 : Nat)).1.pack_temperatures.length = 4 ∧
      (c6battery, (212 : Nat)).2 = 0 + 212) := by
  have h : parse_battery_block c6input 0 = some (c6battery, 212) := by rfl
  exact ⟨⟨h, by decide, by decide⟩,
    C6_block_self_description c6input 0 (c6battery, 212) h (by decide)
      (by decide)⟩

/-- Claim C7 (code bug): on the §8 example window `_parse_header_block`
returns next offset 12 + 66 and decodes voltage 55.41, current 0,
capacities 420/420, SOC 100 — but `temperature_min` is decoded from hex
digits 44-47 (value 0, inside the reserved span) instead of the
documented digits 36-39, whose value `0082` would decode to 13; the
code never reads digits 36-39, contradicting its own docstring. -/
theorem C7_header_example :
    parse_header_block c7decoded 12 = some (c7hdr, 12 + 66) ∧
    c7hdr.voltage = 5541 / 100 ∧ c7hdr.current = 0 ∧
    c7hdr.total_capacity = 420 ∧ c7hdr.remaining_capacity = 420 ∧
    c7hdr.soc = 100 ∧ c7hdr.cell_count = 16 ∧ c7hdr.battery_count = 4 ∧
    convert_signed c7decoded (12 + 36) 4 10 = some 13 ∧
    c7hdr.temperature_min = 0 ∧ (13 : Rat) ≠ 0 := by
  refine ⟨by rfl, by rfl, ?_, by rfl, by rfl, by rfl, by rfl, by rfl,
    ?_, ?_, by norm_num⟩
  · show ((0 : Int) : Rat) / 1 = 0
    norm_num
  · rw [show convert_signed c7decoded (12 + 36) 4 10
        = some (((130 : Int) : Rat) / 10) from rfl]
    norm_num
  · show ((0 : Int) : Rat) / 10 = 0
    norm_num

/-- Claim C1 (counterexample): a poll cycle whose header-stage parse
raises does not retain the previous snapshot — `self.data` was cleared
before the parse, so the group entry present beforehand is gone
afterwards. -/
theorem C1_counterexample :
    parse_header_block (strip_frame c1badResp) 12 = none ∧
    c1prev.group = some c1group ∧
    (runPollCycle c1prev (some c1badResp)).group = none := by
  refine ⟨by rfl, by rfl, by rfl⟩

/-- Claim C1 (amended): on no response the previous snapshot is returned
unchanged, but on a header-stage parse failure the already-cleared empty
snapshot is returned (all previous entries are dropped). -/
theorem C1_amended :
    (∀ prev, runPollCycle prev none = prev) ∧
    (∀ prev resp, parse_header_block (strip_frame resp) 12 = none →
      runPollCycle prev (some resp) = Snapshot.empty) := by
  constructor
  · intro prev
    rfl
  · intro prev resp h
    simp only [runPollCycle, h]

/-- Witness for C1 (amended) at the concrete snapshot `c1prev` and the
garbage response `c1badResp`. -/
theorem C1_amended_witness :
    runPollCycle c1prev none = c1prev ∧
    (parse_header_block (strip_frame c1badResp) 12 = none ∧
      runPollCycle c1prev (some c1badResp) = Snapshot.empty) :=
  ⟨C1_amended.1 c1prev, by rfl, C1_amended.2 c1prev c1badResp (by rfl)⟩

/-- Claim C2 (counterexample): the header of `c2decoded` reports 2
batteries; exactly one of the two block regions fails to parse (the
first), the second is well-formed at its nominal offset — yet the
resulting snapshot contains no battery at all, because the loop retried
the failed cursor instead of reaching the second block. -/
theorem C2_counterexample :
    ((parse_header_block c2decoded 12).map fun hp =>
      (hp.1.battery_count, hp.2)) = some (2, 78) ∧
    parse_battery_block c2decoded 78 = none ∧
    (parse_battery_block c2decoded 290).isSome = true ∧
    strip_frame c2resp = c2decoded ∧
    (runPollCycle Snapshot.empty (some c2resp)).batteries = [] := by
  refine ⟨by rfl, by rfl, by rfl, by decide, by rfl⟩

/-- Claim C2 (amended): when a battery block's parse raises, the loop
keeps the stale cursor, so every later iteration fails identically and
adds nothing: the snapshot contains the group entry and exactly the
batteries accumulated before the first failure (the other N-1 survive
only when the failing block is the last). -/
theorem C2_amended :
    (∀ decoded k i pos acc, parse_battery_block decoded pos = none →
      batteryLoop decoded k i pos acc = acc) ∧
    (∀ prev resp hp, parse_header_block (strip_frame resp) 12 = some hp →
      (runPollCycle prev (some resp)).group
          = some (transform_group_data hp.1) ∧
      (runPollCycle prev (some resp)).batteries
          = batteryLoop (strip_frame resp) hp.1.battery_count 0 hp.2 []) := by
  constructor
  · intro decoded k
    induction k with
    | zero => intro i pos acc h; rfl
    | succ k ih =>
      intro i pos acc h
      unfold batteryLoop
      rw [h]
      exact ih (i + 1) pos acc h
  · intro prev resp hp h
    constructor <;> simp only [runPollCycle, h]

/-- Witness for C2 (amended) on the concrete response `c2resp`. -/
theorem C2_amended_witness :
    batteryLoop c2decoded 2 0 78 [] = [] ∧
    ((runPollCycle Snapshot.empty (some c2resp)).group
        = some (transform_group_data c2hdr) ∧
      (runPollCycle Snapshot.empty (some c2resp)).batteries
        = batteryLoop (strip_frame c2resp) c2hdr.battery_count 0 78 []) :=
  ⟨C2_amended.1 c2decoded 2 0 78 [] (by rfl),
    C2_amended.2 Snapshot.empty c2resp (c2hdr, 78) (by rfl)⟩

/-- Uniform-step characterization of the per-battery loop: if every one
of the `k` blocks at stride `L` from `pos` parses to the same record,
the loop appends exactly `k` entries keyed `i+1 .. i+k`. -/
theorem batteryLoop_uniform (decoded : List Char) (b : BatteryData) (L : Nat) :
    ∀ k i pos acc,
      (∀ j, j < k → parse_battery_block decoded (pos + L * j)
        = some (b, pos + L * j + L)) →
      batteryLoop decoded k i pos acc
        = acc ++ (List.range k).map
            (fun j => (i + 1 + j, transform_battery_data b (i + 1 + j))) := by
  intro k
  induction k with
  | zero => intro i pos acc h; simp [batteryLoop]
  | succ k ih =>
    intro i pos acc h
    have h0 := h 0 (Nat.succ_pos k)
    rw [Nat.mul_zero, Nat.add_zero] at h0
    unfold batteryLoop
    rw [h0]
    dsimp only
    have hsteps : ∀ j, j < k → parse_battery_block decoded ((pos + L) + L * j)
        = some (b, (pos + L) + L * j + L) := by
      intro j hj
      have := h (j + 1) (by omega)
      rw [show pos + L * (j + 1) = pos + L + L * j from by ring] at this
      exact this
    rw [ih (i + 1) (pos + L) _ hsteps]
    rw [List.range_succ_eq_map, List.map_cons, List.map_map]
    have hfun : ((fun j => (i + 1 + j, transform_battery_data b (i + 1 + j)))
          ∘ Nat.succ)
        = fun j => (i + 1 + 1 + j, transform_battery_data b (i + 1 + 1 + j)) := by
      funext j
      have harith : i + 1 + Nat.succ j = i + 1 + 1 + j := by omega
      simp only [Function.comp_apply, harith]
    rw [hfun]
    simp

/-- Each of the 2 all-zero battery blocks of `c10decoded` parses to
`c10block`, advancing the cursor by its 132-digit width. -/
theorem c10_parse_steps :
    ∀ j, j < 2 → parse_battery_block c10decoded (78 + 132 * j)
      = some (c10block, 78 + 132 * j + 132) := by
  intro j hj
  interval_cases j <;> rfl

/-- Claim C10: the per-cycle battery loop runs exactly the number of
times reported by the response header's battery-count field, whatever
its value: the configured count is stored capped at `min(configured,
12)` but is never consulted — the loop is handed the header's count
directly, and when all blocks parse it yields exactly that many battery
entries, with no upper bound. -/
theorem C10_header_count_governs :
    (∀ c, stored_battery_count c ≤ 12) ∧
    (∀ prev resp hp, parse_header_block (strip_frame resp) 12 = some hp →
      (runPollCycle prev (some resp)).batteries
        = batteryLoop (strip_frame resp) hp.1.battery_count 0 hp.2 []) ∧
    (∀ decoded b L k i pos acc,
      (∀ j, j < k → parse_battery_block decoded (pos + L * j)
        = some (b, pos + L * j + L)) →
      (batteryLoop decoded k i pos acc).length = acc.length + k) := by
  refine ⟨fun c => Nat.min_le_right c 12, ?_, ?_⟩
  · intro prev resp hp h
    simp only [runPollCycle, h]
  · intro decoded b L k i pos acc h
    rw [batteryLoop_uniform decoded b L k i pos acc h]
    simp

/-- Witness for C10 on the concrete 2-battery response `c10resp`: the
header reports 2 batteries, the loop is run with that count, and both
blocks parse, yielding exactly 2 entries. -/
theorem C10_header_count_governs_witness :
    (parse_header_block (strip_frame c10resp) 12 = some (c10hdr, 78) ∧
      (runPollCycle Snapshot.empty (some c10resp)).batteries
        = batteryLoop (strip_frame c10resp) c10hdr.battery_count 0 78 []) ∧
    (batteryLoop c10decoded 2 0 78 []).length
      = ([] : List (Nat × SensorBattery)).length + 2 := by
  have hstrip : strip_frame c10resp = c10decoded := by
    show (('~' :: c10decoded ++ ['\x0D']).drop 1).dropLast = c10decoded
    exact List.dropLast_concat
  have hh : parse_header_block (strip_frame c10resp) 12 = some (c10hdr, 78) := by
    rw [hstrip]; rfl
  exact ⟨⟨hh, C10_header_count_governs.2.1 Snapshot.empty c10resp (c10hdr, 78) hh⟩,
    C10_header_count_governs.2.2 c10decoded c10block 132 2 0 78 [] c10_parse_steps⟩



/-- Claim C9: the frame returned by the `_read_response` loop is the
first delivered candidate that passes all four gates (SOI/EOI
delimiters, checksum, minimum viable length 30, return code `"00"`);
every earlier candidate failed some gate, and a failing frame is never
returned. -/
theorem C9_first_valid (frames : List (List Char)) (f : List Char)
    (h : read_response frames = some f) :
    passesGates f = true ∧
    ∃ pre post, frames = pre ++ f :: post ∧
      ∀ g ∈ pre, passesGates g = false := by
  induction frames with
  | nil => cases h
  | cons r rs ih =>
    unfold read_response at h
    by_cases h1 : frameDelimited r = false
    · rw [if_pos h1] at h
      obtain ⟨hp, pre, post, heq, hpre⟩ := ih h
      refine ⟨hp, r :: pre, post, by rw [heq]; rfl, ?_⟩
      intro g hg
      rcases List.mem_cons.mp hg with rfl | hg
      · simp [passesGates, h1]
      · exact hpre g hg
    · rw [if_neg h1] at h
      by_cases h2 : verify_checksum r = false
      · rw [if_pos h2] at h
        obtain ⟨hp, pre, post, heq, hpre⟩ := ih h
        refine ⟨hp, r :: pre, post, by rw [heq]; rfl, ?_⟩
        intro g hg
        rcases List.mem_cons.mp hg with rfl | hg
        · simp [passesGates, h2]
        · exact hpre g hg
      · rw [if_neg h2] at h
        by_cases h3 : r.length < 30
        · rw [if_pos h3] at h
          obtain ⟨hp, pre, post, heq, hpre⟩ := ih h
          refine ⟨hp, r :: pre, post, by rw [heq]; rfl, ?_⟩
          intro g hg
          rcases List.mem_cons.mp hg with rfl | hg
          · simp [passesGates, h3]
          · exact hpre g hg
        · rw [if_neg h3] at h
          by_cases h4 : validate_response r = false
          · rw [if_pos h4] at h
            obtain ⟨hp, pre, post, heq, hpre⟩ := ih h
            refine ⟨hp, r :: pre, post, by rw [heq]; rfl, ?_⟩
            intro g hg
            rcases List.mem_cons.mp hg with rfl | hg
            · simp [passesGates, h4]
            · exact hpre g hg
          · rw [if_neg h4] at h
            cases h
            refine ⟨?_, [], rs, rfl, by intro g hg; cases hg⟩
            rw [Bool.not_eq_false] at h1 h2 h4
            simp [passesGates, h1, h2, h3, h4]

/-- Witness for C9: from the candidate sequence `[c9bad, c9good]` the
loop returns `c9good`, which passes all gates, with the failing `c9bad`
before it. -/
theorem C9_first_valid_witness :
    read_response [c9bad, c9good] = some c9good ∧
    (passesGates c9good = true ∧
      ∃ pre post, [c9bad, c9good] = pre ++ c9good :: post ∧
        ∀ g ∈ pre, passesGates g = false) := by
  have h : read_response [c9bad, c9good] = some c9good := by decide
  exact ⟨h, C9_first_valid [c9bad, c9good] c9good h⟩
